import Mathlib

/-!
Verification of the SCSI SPIN/SPOUT page codec of stenc (src/scsiencrypt.h):
struct layouts, the chained KAD record walker `read_page_kads`, the
outbound set-data-encryption page builder `make_sde`, and the
bit-packed flag fields of the set-data-encryption page.

Bytes are modelled as `Nat` (values < 256 where it matters, with explicit
`% 65536` where a 16-bit store truncates).  A page in memory is a function
`Nat → Nat` from byte offsets to byte values; an actual finite buffer is a
`List Nat`, extended to memory by `memOf` (reads past the end of the buffer
return the byte 0, standing for whatever adjacent memory holds).
-/

namespace Stenc

/-- Decode a 16-bit big-endian (network order) integer stored at byte
offset `p`, as `ntohs` does on a wire field. -/
def readBE16 (mem : Nat → Nat) (p : Nat) : Nat :=
  mem p * 256 + mem (p + 1)

/-- High byte of a 16-bit big-endian store of `n` (a `uint16_t` field
truncates to 16 bits first). -/
def hi8 (n : Nat) : Nat := n % 65536 / 256

/-- Low byte of a 16-bit big-endian store of `n`. -/
def lo8 (n : Nat) : Nat := n % 256

/-- Memory backed by a finite buffer: reads beyond the buffer's end see
byte 0 (out-of-bounds memory, which the C++ would read as garbage). -/
def memOf (l : List Nat) : Nat → Nat :=
  fun i => l.getD i 0

/-- Size of the common page header: `page_code` (u16) + `length` (u16). -/
def sizeof_page_header : Nat := 2 + 2

/-- Size of `struct kad`: type (u8) + flags (u8) + length (u16);
`static_assert(sizeof(kad) == 4u)`. -/
def sizeof_kad : Nat := 1 + 1 + 2

/-- Size of `struct page_des`: page_code (2) + length (2) + scope (1) +
encryption_mode (1) + decryption_mode (1) + algorithm_index (1) +
key_instance_counter (4) + flags (1) + kad_format (1) + asdk_count (2) +
reserved (8); `static_assert(sizeof(page_des) == 24u)`. -/
def sizeof_page_des : Nat := 2 + 2 + 1 + 1 + 1 + 1 + 4 + 1 + 1 + 2 + 8

/-- Size of `struct page_sde`: page_code (2) + length (2) + control (1) +
flags (1) + encryption_mode (1) + decryption_mode (1) + algorithm_index (1) +
key_format (1) + kad_format (1) + reserved (7) + key_length (2);
`static_assert(sizeof(page_sde) == 20u)`. -/
def sizeof_page_sde : Nat := 2 + 2 + 1 + 1 + 1 + 1 + 1 + 1 + 1 + 7 + 2

/-- Size of `struct page_nbes`: page_code (2) + length (2) +
logical_object_number (8) + status (1) + algorithm_index (1) + flags (1) +
kad_format (1); `static_assert(sizeof(page_nbes) == 16u)`. -/
def sizeof_page_nbes : Nat := 2 + 2 + 8 + 1 + 1 + 1 + 1

/-- Size of `struct sense_data`: response (1) + reserved (1) + flags (1) +
information (4) + additional_sense_length (1) +
command_specific_information (4) + additional_sense_code (1) +
additional_sense_qualifier (1) + field_replaceable_unit_code (1) +
sense_key_specific (3); `static_assert(sizeof(sense_data) == 18u)`. -/
def sizeof_sense_data : Nat := 1 + 1 + 1 + 4 + 1 + 4 + 1 + 1 + 1 + 3

/-- The loop of `read_page_kads`, one offset per yielded `kad` reference:
`while (it < end) { v.push_back(cref(*elem)); it += ntohs(elem->length) +
sizeof(kad); }`.  The record's `length` field sits at byte offset `it + 2`
inside the record. -/
def read_page_kads_from (mem : Nat → Nat) (it e : Nat) : List Nat :=
  if _h : it < e then
    it :: read_page_kads_from mem (it + (readBE16 mem (it + 2) + sizeof_kad)) e
  else
    []
termination_by e - it
decreasing_by
  simp only [sizeof_kad]
  omega

/-- `read_page_kads` for a page whose fixed struct occupies `pageSize`
bytes: the cursor starts at `start + sizeof(Page)` and the boundary is
`start + ntohs(page.length) + sizeof(page_header)`; the page's `length`
field sits at byte offset 2. -/
def read_page_kads (pageSize : Nat) (mem : Nat → Nat) : List Nat :=
  read_page_kads_from mem pageSize (readBE16 mem 2 + sizeof_page_header)

/-- Bit position of the raw-decryption-mode-control field in the
`page_sde` flags byte (`flags_rdmc_pos {4u}`). -/
def flags_rdmc_pos : Nat := 4

/-- Mask of the rdmc field (`flags_rdmc_mask {3u << flags_rdmc_pos}`). -/
def flags_rdmc_mask : Nat := 3 <<< flags_rdmc_pos

/-- Bit position of clear-key-on-demount (`flags_ckod_pos {2u}`). -/
def flags_ckod_pos : Nat := 2

/-- Mask of clear-key-on-demount (`flags_ckod_mask {1u << flags_ckod_pos}`). -/
def flags_ckod_mask : Nat := 1 <<< flags_ckod_pos

/-- Bit position of clear-key-on-reservation-preempt
(`flags_ckorp_pos {1u}`). -/
def flags_ckorp_pos : Nat := 1

/-- Mask of clear-key-on-reservation-preempt
(`flags_ckorp_mask {1u << flags_ckorp_pos}`). -/
def flags_ckorp_mask : Nat := 1 <<< flags_ckorp_pos

/-- Bit position of clear-key-on-reservation-loss
(`flags_ckorl_pos {0u}`). -/
def flags_ckorl_pos : Nat := 0

/-- Mask of clear-key-on-reservation-loss
(`flags_ckorl_mask {1u << flags_ckorl_pos}`). -/
def flags_ckorl_mask : Nat := 1 <<< flags_ckorl_pos

/-- Bit position of the scope field in the `page_sde` control byte
(`control_scope_pos {5u}`). -/
def control_scope_pos : Nat := 5

/-- Mask of the scope field (`control_scope_mask {7u << control_scope_pos}`). -/
def control_scope_mask : Nat := 7 <<< control_scope_pos

/-- Bit position of the lock bit in the `page_sde` control byte
(`control_lock_pos {0u}`). -/
def control_lock_pos : Nat := 0

/-- Mask of the lock bit (`control_lock_mask {1u << control_lock_pos}`). -/
def control_lock_mask : Nat := 1 <<< control_lock_pos

/-- Enumerator `sde_rdmc::algorithm_default = 0u << page_sde::flags_rdmc_pos`. -/
def sde_rdmc_algorithm_default : Nat := 0 <<< flags_rdmc_pos

/-- Enumerator `sde_rdmc::enabled = 2u << page_sde::flags_rdmc_pos`. -/
def sde_rdmc_enabled : Nat := 2 <<< flags_rdmc_pos

/-- Enumerator `sde_rdmc::disabled = 3u << page_sde::flags_rdmc_pos`. -/
def sde_rdmc_disabled : Nat := 3 <<< flags_rdmc_pos

/-- Rendering of `operator<<(std::ostream&, encrypt_mode)` on the raw byte
value of the enum: `off = 0`, `external = 1`, anything else prints "on". -/
def encrypt_mode_output (m : Nat) : String :=
  if m = 0 then "off"
  else if m = 1 then "external"
  else "on"

/-- Rendering of `operator<<(std::ostream&, decrypt_mode)` on the raw byte
value of the enum: `off = 0`, `raw = 1`, `on = 2`, anything else prints
"mixed". -/
def decrypt_mode_output (m : Nat) : String :=
  if m = 0 then "off"
  else if m = 1 then "raw"
  else if m = 2 then "on"
  else "mixed"

/-- Parameters of `make_sde`, mirroring its signature: encryption mode,
decryption mode, algorithm index, key bytes (possibly empty, meaning
"clear the key"), key name bytes (empty meaning no key name), the
KAD-format tag, the raw-decryption-mode-control policy (one of the
`sde_rdmc` enumerator values, already positioned in the two-bit field),
and the clear-key-on-demount flag. -/
structure sde_params where
  enc_mode : Nat
  dec_mode : Nat
  algorithm_index : Nat
  key : List Nat
  key_name : List Nat
  kad_format : Nat
  rdmc : Nat
  ckod : Bool

/-- Modelled from the spec: the body of `make_sde` is not under src (only
its declaration in scsiencrypt.h).  Flags byte of the built SDE page
("raw-decryption-mode-control occupies its own two-bit field;
clear-key-on-demount ... one bit"): the rdmc policy value or-ed with the
clear-key-on-demount bit; the reservation-related bits are left clear
since `make_sde` takes no parameter for them. -/
def sde_flags_byte (rdmc : Nat) (ckod : Bool) : Nat :=
  rdmc ||| (if ckod then flags_ckod_mask else 0)

/-- Modelled from the spec: control byte of the built SDE page ("lock and
scope occupy the control byte"); the spec fixes which bits the two fields
occupy but not their values, so a concrete choice is made (scope 2,
lock bit set). -/
def sde_control_byte : Nat :=
  (2 <<< control_scope_pos) ||| (1 <<< control_lock_pos)

/-- Modelled from the spec: the body of `make_sde` is not under src (only
its declaration in scsiencrypt.h).  Per spec 4.3 and the `page_sde`
layout: the 20-byte fixed region (page code, page length = total size
minus the 4-byte header, control byte, flags byte, encryption mode,
decryption mode, algorithm index, key format byte, KAD-format tag, 7
reserved bytes, 2-byte key length = byte length of the supplied key),
then the raw key bytes, then — only when a key name is supplied — exactly
one KAD record of type "unauthenticated key data" (type 0, flags 0,
2-byte length = the name's byte length, then the name's raw bytes).
All 2-byte fields are big-endian. -/
def make_sde (p : sde_params) : List Nat :=
  let kadPart : List Nat :=
    if p.key_name = [] then []
    else 0 :: 0 :: hi8 p.key_name.length :: lo8 p.key_name.length :: p.key_name
  let declared : Nat :=
    sizeof_page_sde + p.key.length + kadPart.length - sizeof_page_header
  0 :: 16 ::
  hi8 declared :: lo8 declared ::
  sde_control_byte :: sde_flags_byte p.rdmc p.ckod ::
  p.enc_mode :: p.dec_mode :: p.algorithm_index ::
  0 :: p.kad_format ::
  0 :: 0 :: 0 :: 0 :: 0 :: 0 :: 0 ::
  hi8 p.key.length :: lo8 p.key.length ::
  (p.key ++ kadPart)

/-- Decoded view of a set-data-encryption page: the fields the round-trip
property talks about. -/
structure sde_view where
  encryption_mode : Nat
  decryption_mode : Nat
  algorithm_index : Nat
  key : List Nat
  key_name : Option (List Nat)
deriving DecidableEq

/-- Page-codec decode of an SDE buffer, following the `page_sde` layout
byte for byte: offsets 0-3 page header, 4 control, 5 flags,
6 encryption_mode, 7 decryption_mode, 8 algorithm_index, 9 key_format,
10 kad_format, 11-17 reserved, 18-19 key_length (big-endian), then
`key_length` key bytes, then an optional trailing `kad` record (type,
flags, big-endian length, descriptor = the key name). -/
def parse_sde (buf : List Nat) : Option sde_view :=
  match buf with
  | _pc1 :: _pc2 :: _len1 :: _len2 :: _control :: _flags :: em :: dm :: ai ::
      _keyf :: _kadf :: _r1 :: _r2 :: _r3 :: _r4 :: _r5 :: _r6 :: _r7 ::
      kl1 :: kl2 :: rest =>
    let keyLen := kl1 * 256 + kl2
    if keyLen ≤ rest.length then
      match rest.drop keyLen with
      | [] => some ⟨em, dm, ai, rest.take keyLen, none⟩
      | _t :: _f :: nl1 :: nl2 :: nameBytes =>
        if nameBytes.length = nl1 * 256 + nl2 then
          some ⟨em, dm, ai, rest.take keyLen, some nameBytes⟩
        else none
      | _ => none
    else none
  | _ => none

/-- Serialized form of one KAD record on the wire: 1-byte type, 1-byte
flags, 2-byte big-endian length of the descriptor, then the descriptor
bytes. -/
def mkKadBytes (t f : Nat) (descriptor : List Nat) : List Nat :=
  t :: f :: hi8 descriptor.length :: lo8 descriptor.length :: descriptor

/-- A device-encryption-status page whose single trailing KAD record
declares descriptor length 100: the page's declared length is 28, so the
record boundary sits at byte 32, while the record starting at byte 24
claims to extend to byte 128. -/
def des_overrun_page : List Nat :=
  [0, 32, 0, 28,
   0, 0, 0, 0, 0, 0, 0, 0, 0, 0, 0, 0, 0, 0, 0, 0, 0, 0, 0, 0,
   0, 0, 0, 100, 0, 0, 0, 0]

/-- A device-encryption-status page buffer truncated to its 24 fixed
bytes: its declared length 28 claims 8 trailing bytes that the actual
buffer does not contain (boundary at byte 32, buffer ends at byte 24). -/
def des_truncated_page : List Nat :=
  [0, 32, 0, 28,
   0, 0, 0, 0, 0, 0, 0, 0, 0, 0, 0, 0, 0, 0, 0, 0, 0, 0, 0, 0]

/-- A device-encryption-status page with declared length 20: the fixed
region accounts for all declared bytes, so there are zero trailing KAD
records. -/
def des_empty_page : List Nat :=
  [0, 32, 0, 20,
   0, 0, 0, 0, 0, 0, 0, 0, 0, 0, 0, 0, 0, 0, 0, 0, 0, 0, 0, 0]

theorem read_page_kads_from_cons (mem : Nat → Nat) (it e x : Nat)
    (h : it < e) (hx : it + (readBE16 mem (it + 2) + sizeof_kad) = x) :
    read_page_kads_from mem it e = it :: read_page_kads_from mem x e := by
  rw [read_page_kads_from]
  simp [h, hx]

theorem read_page_kads_from_nil (mem : Nat → Nat) (it e : Nat)
    (h : ¬ it < e) :
    read_page_kads_from mem it e = [] := by
  rw [read_page_kads_from]
  simp [h]

theorem read_page_kads_from_length_le (mem : Nat → Nat) :
    ∀ (n it e : Nat), e - it ≤ n →
      4 * (read_page_kads_from mem it e).length ≤ (e - it) + 3 := by
  intro n
  induction n with
  | zero =>
    intro it e h
    rw [read_page_kads_from_nil mem it e (by omega)]
    simp
  | succ n ih =>
    intro it e h
    by_cases hlt : it < e
    · rw [read_page_kads_from_cons mem it e _ hlt rfl]
      have hrec := ih (it + (readBE16 mem (it + 2) + sizeof_kad)) e
        (by simp only [sizeof_kad]; omega)
      simp only [List.length_cons, sizeof_kad] at *
      omega
    · rw [read_page_kads_from_nil mem it e hlt]
      simp

theorem hi8_lo8 (n : Nat) (h : n < 65536) : hi8 n * 256 + lo8 n = n := by
  unfold hi8 lo8
  omega

theorem parse_sde_no_kad (pc1 pc2 l1 l2 c fl em dm ai kf kdf r1 r2 r3 r4 r5
    r6 r7 kl1 kl2 : Nat) (key : List Nat) (hkl : kl1 * 256 + kl2 = key.length) :
    parse_sde (pc1 :: pc2 :: l1 :: l2 :: c :: fl :: em :: dm :: ai :: kf ::
      kdf :: r1 :: r2 :: r3 :: r4 :: r5 :: r6 :: r7 :: kl1 :: kl2 :: key) =
      some ⟨em, dm, ai, key, none⟩ := by
  simp only [parse_sde, hkl, List.drop_length, List.take_length, Nat.le_refl,
    if_true, ite_true]

theorem parse_sde_with_kad (pc1 pc2 l1 l2 c fl em dm ai kf kdf r1 r2 r3 r4 r5
    r6 r7 kl1 kl2 t fl2 nl1 nl2 : Nat) (key name : List Nat)
    (hkl : kl1 * 256 + kl2 = key.length) (hnl : nl1 * 256 + nl2 = name.length) :
    parse_sde (pc1 :: pc2 :: l1 :: l2 :: c :: fl :: em :: dm :: ai :: kf ::
      kdf :: r1 :: r2 :: r3 :: r4 :: r5 :: r6 :: r7 :: kl1 :: kl2 ::
      (key ++ (t :: fl2 :: nl1 :: nl2 :: name))) =
      some ⟨em, dm, ai, key, some name⟩ := by
  simp only [parse_sde, hkl, hnl, List.drop_left, List.take_left,
    List.length_append, Nat.le_add_right, if_true, ite_true,
    eq_self_iff_true]

/-- C3: for every valid set of SDE parameters — the key and the key name
each fitting the 16-bit length fields — decoding the buffer produced by
`make_sde` with the page codec yields back the same encryption mode,
decryption mode, algorithm index, key bytes, and key name (if any). -/
theorem make_sde_roundtrip (p : sde_params)
    (hk : p.key.length < 65536) (hn : p.key_name.length < 65536) :
    parse_sde (make_sde p) =
      some ⟨p.enc_mode, p.dec_mode, p.algorithm_index, p.key,
        if p.key_name = [] then none else some p.key_name⟩ := by
  have hkl := hi8_lo8 p.key.length hk
  have hnl := hi8_lo8 p.key_name.length hn
  by_cases hname : p.key_name = []
  · simp only [make_sde, hname, eq_self_iff_true, if_true, ite_true,
      List.append_nil]
    exact parse_sde_no_kad _ _ _ _ _ _ _ _ _ _ _ _ _ _ _ _ _ _ _ _ p.key hkl
  · simp only [make_sde, hname, if_neg hname, ite_false, if_false]
    exact parse_sde_with_kad _ _ _ _ _ _ _ _ _ _ _ _ _ _ _ _ _ _ _ _ _ _ _ _
      p.key p.key_name hkl hnl

/-- Witness for C3 at a concrete parameter set: encryption mode 2 (on),
decryption mode 2 (on), algorithm index 1, a 4-byte key, a 2-byte key
name, ASCII KAD format, rdmc enabled, clear-key-on-demount set. -/
theorem make_sde_roundtrip_witness :
    (([9, 8, 7, 6] : List Nat).length < 65536 ∧
     ([107, 49] : List Nat).length < 65536) ∧
    parse_sde (make_sde ⟨2, 2, 1, [9, 8, 7, 6], [107, 49], 2,
        sde_rdmc_enabled, true⟩) =
      some ⟨2, 2, 1, [9, 8, 7, 6],
        if ([107, 49] : List Nat) = [] then none else some [107, 49]⟩ :=
  ⟨⟨by decide, by decide⟩,
   make_sde_roundtrip ⟨2, 2, 1, [9, 8, 7, 6], [107, 49], 2,
       sde_rdmc_enabled, true⟩ (by decide) (by decide)⟩

/-- C1: on a device-encryption-status page whose single trailing record
declares a length reaching past the page's declared boundary (boundary at
byte 32, record at byte 24 declaring extent up to byte 128),
`read_page_kads` does NOT stop at the boundary with a format error: it
yields the overrunning record (its return carries no error case at all)
and the cursor is advanced to byte 128, far past the boundary. -/
theorem read_page_kads_yields_overrunning_record :
    read_page_kads sizeof_page_des (memOf des_overrun_page) = [24] ∧
    readBE16 (memOf des_overrun_page) 2 + sizeof_page_header = 32 ∧
    24 + (readBE16 (memOf des_overrun_page) (24 + 2) + sizeof_kad) = 128 := by
  refine ⟨?_, by decide, by decide⟩
  rw [read_page_kads]
  show read_page_kads_from (memOf des_overrun_page) 24 32 = [24]
  rw [read_page_kads_from_cons _ 24 32 128 (by decide) (by decide),
    read_page_kads_from_nil _ 128 32 (by decide)]

/-- C2: on a device-encryption-status page buffer holding only its 24
fixed bytes while its declared length claims a boundary at byte 32,
`read_page_kads` does NOT clamp its authority to the actual buffer size
and does NOT fail: it walks the declared region anyway and yields two
records at bytes 24 and 28, both entirely outside the actual buffer. -/
theorem read_page_kads_walks_past_buffer :
    des_truncated_page.length = sizeof_page_des ∧
    sizeof_page_des < readBE16 (memOf des_truncated_page) 2 + sizeof_page_header ∧
    read_page_kads sizeof_page_des (memOf des_truncated_page) = [24, 28] ∧
    des_truncated_page.length ≤ 24 := by
  refine ⟨by decide, by decide, ?_, by decide⟩
  rw [read_page_kads]
  show read_page_kads_from (memOf des_truncated_page) 24 32 = [24, 28]
  rw [read_page_kads_from_cons _ 24 32 28 (by decide) (by decide),
    read_page_kads_from_cons _ 28 32 32 (by decide) (by decide),
    read_page_kads_from_nil _ 32 32 (by decide)]

/-- C4 counterexample: the fixed region of `page_des` following the
4-byte page header is not 24 bytes, and the trailing KAD records (which
begin at `sizeof(page_des)`, where `read_page_kads` starts its cursor) do
not begin at byte offset 28. -/
theorem page_des_kad_offset_not_28 :
    ¬ (sizeof_page_des - sizeof_page_header = 24 ∧ sizeof_page_des = 28) := by
  decide

/-- C4 (amended): the Device Encryption Status page has a fixed 20-byte
region following its 4-byte page header — 24 bytes in total including the
header — so the trailing KAD records of a DES page begin at byte offset
24 from the start of the page. -/
theorem page_des_kad_offset :
    sizeof_page_des - sizeof_page_header = 20 ∧ sizeof_page_des = 24 := by
  decide

/-- C5: the page and sense structures have exactly the fixed total sizes
asserted by the compile-time checks: `page_des` 24 bytes, `page_sde` 20
bytes, `page_nbes` 16 bytes, `sense_data` 18 bytes. -/
theorem struct_sizes_match_asserts :
    sizeof_page_des = 24 ∧ sizeof_page_sde = 20 ∧ sizeof_page_nbes = 16 ∧
    sizeof_sense_data = 18 := by
  decide

/-- C6: for a page with exactly zero trailing records — its declared
length plus the 4-byte page header equals the size of the fixed struct —
`read_page_kads` produces the empty sequence. -/
theorem read_page_kads_empty_no_trailing (pageSize : Nat) (mem : Nat → Nat)
    (h : readBE16 mem 2 + sizeof_page_header = pageSize) :
    read_page_kads pageSize mem = [] := by
  rw [read_page_kads, h]
  exact read_page_kads_from_nil mem pageSize pageSize (lt_irrefl pageSize)

/-- Witness for C6 at a concrete DES page with declared length 20. -/
theorem read_page_kads_empty_no_trailing_witness :
    readBE16 (memOf des_empty_page) 2 + sizeof_page_header = sizeof_page_des ∧
    read_page_kads sizeof_page_des (memOf des_empty_page) = [] :=
  ⟨by decide,
   read_page_kads_empty_no_trailing sizeof_page_des (memOf des_empty_page)
     (by decide)⟩

/-- C7: a serialized KAD record occupies exactly `sizeof(kad) + length`
= 4 + length bytes on the wire, and at each step the walker advances its
cursor by exactly `ntohs(record.length) + sizeof(kad)` bytes past the
record it just yielded. -/
theorem kad_wire_size_and_advance (t f : Nat) (d : List Nat)
    (mem : Nat → Nat) (it e : Nat) :
    (mkKadBytes t f d).length = sizeof_kad + d.length ∧
    (it < e → read_page_kads_from mem it e =
      it :: read_page_kads_from mem (it + (readBE16 mem (it + 2) + sizeof_kad)) e) := by
  constructor
  · simp only [mkKadBytes, List.length_cons, sizeof_kad]
    omega
  · intro h
    exact read_page_kads_from_cons mem it e _ h rfl

/-- Witness for C7 at a concrete record and a concrete walker state. -/
theorem kad_wire_size_and_advance_witness :
    (mkKadBytes 0 0 [7, 7, 7]).length = sizeof_kad + 3 ∧
    read_page_kads_from (memOf [0, 0, 0, 0]) 0 1 =
      0 :: read_page_kads_from (memOf [0, 0, 0, 0])
        (0 + (readBE16 (memOf [0, 0, 0, 0]) (0 + 2) + sizeof_kad)) 1 :=
  ⟨(kad_wire_size_and_advance 0 0 [7, 7, 7] (memOf [0, 0, 0, 0]) 0 1).1,
   (kad_wire_size_and_advance 0 0 [7, 7, 7] (memOf [0, 0, 0, 0]) 0 1).2
     (by decide)⟩

/-- C8: for every input page — whatever the declared page length and every
record's length field — `read_page_kads` returns a finite sequence whose
length is bounded by a quarter of the declared trailing region (each loop
iteration advances the cursor by at least `sizeof(kad)` = 4 bytes toward
the fixed end), so the walk always terminates. -/
theorem read_page_kads_finite (pageSize : Nat) (mem : Nat → Nat) :
    4 * (read_page_kads pageSize mem).length ≤
      (readBE16 mem 2 + sizeof_page_header - pageSize) + 3 :=
  read_page_kads_from_length_le mem
    (readBE16 mem 2 + sizeof_page_header - pageSize) pageSize
    (readBE16 mem 2 + sizeof_page_header) (Nat.le_refl _)

/-- C9: every `sde_rdmc` enumerator value lies entirely within the
two-bit rdmc field of the `page_sde` flags byte; the clear-key-on-demount,
clear-key-on-reservation-preempt, and clear-key-on-reservation-loss bits
are disjoint from the rdmc field and from each other; the lock and scope
fields of the control byte occupy disjoint bit ranges. -/
theorem sde_flag_fields_disjoint :
    (sde_rdmc_algorithm_default &&& flags_rdmc_mask = sde_rdmc_algorithm_default ∧
     sde_rdmc_enabled &&& flags_rdmc_mask = sde_rdmc_enabled ∧
     sde_rdmc_disabled &&& flags_rdmc_mask = sde_rdmc_disabled) ∧
    (flags_ckod_mask &&& flags_rdmc_mask = 0 ∧
     flags_ckorp_mask &&& flags_rdmc_mask = 0 ∧
     flags_ckorl_mask &&& flags_rdmc_mask = 0 ∧
     flags_ckod_mask &&& flags_ckorp_mask = 0 ∧
     flags_ckod_mask &&& flags_ckorl_mask = 0 ∧
     flags_ckorp_mask &&& flags_ckorl_mask = 0) ∧
    control_lock_mask &&& control_scope_mask = 0 := by
  decide

/-- C10: the stream-output renderings are total on raw byte values: every
encrypt_mode value other than 0 (off) and 1 (external) — named enumerator
or not — renders as "on", and every decrypt_mode value other than
0 (off), 1 (raw) and 2 (on) renders as "mixed". -/
theorem mode_output_total (m : Nat) :
    (m ≠ 0 → m ≠ 1 → encrypt_mode_output m = "on") ∧
    (m ≠ 0 → m ≠ 1 → m ≠ 2 → decrypt_mode_output m = "mixed") := by
  refine ⟨fun h0 h1 => ?_, fun h0 h1 h2 => ?_⟩
  · simp [encrypt_mode_output, h0, h1]
  · simp [decrypt_mode_output, h0, h1, h2]

/-- Witness for C10 at the out-of-range byte value 200. -/
theorem mode_output_total_witness :
    (200 ≠ 0 ∧ 200 ≠ 1 ∧ 200 ≠ 2) ∧
    encrypt_mode_output 200 = "on" ∧ decrypt_mode_output 200 = "mixed" :=
  ⟨by decide,
   (mode_output_total 200).1 (by decide) (by decide),
   (mode_output_total 200).2 (by decide) (by decide) (by decide)⟩

end Stenc
